import Mathlib

/-!
Shallow embedding of the authentication subsystem of the Aspire-Hackathon
repository (`server/src/routes/auth.js`, the `Otp` mongoose model, and the
server setup), together with theorems settling the frozen claims about it.

Conventions of the embedding:
* all timestamps are milliseconds since the epoch (`Date.now()` style);
* the MongoDB collections are lists; `findOne` is `List.find?`,
  `deleteMany` is a filter;
* the JWT library is modelled by `SignedToken` / `jwtSign` / `jwtVerify`:
  a token carries its decoded payload, its issuance time, its expiry and a
  flag recording whether its signature verifies under the server secret;
* external collaborators that the routes only branch on are inputs:
  `bcrypt.compare` is a function parameter `cmp`, the mail dispatch outcome
  is a boolean `mailOk`, `Math.random()` is a `rand : Nat` parameter.
-/

namespace Auth

/-- An account document of the `User` collection:
`{_id, name, email, passwordHash}`. -/
structure Account where
  id : String
  name : String
  email : String
  passwordHash : String
deriving Repr, DecidableEq

/-- An OTP document of the `Otp` collection: `{email, code, createdAt}`.
The schema declares `createdAt: {default: Date.now, expires: 600}`, a MongoDB
TTL index of 600 seconds. -/
structure OtpRecord where
  email : String
  code : String
  createdAt : Nat
deriving Repr, DecidableEq

/-- The `User` collection. -/
abbrev UserDB := List Account

/-- The `Otp` collection. -/
abbrev OtpDB := List OtpRecord

/-- Model of `User.findOne({ email })`. -/
def userFindOne (users : UserDB) (email : String) : Option Account :=
  users.find? (fun u => u.email == email)

/-- Model of `User.findById(req.user.sub)`. For an authenticated token,
`sub` is the account id string. For a pending-stage token the decoded payload
has no `sub` field, so `req.user.sub` is `undefined`; mongoose translates
`findById(undefined)` into `findOne({ _id: null })`, which matches no stored
account (every stored account has a store-assigned ObjectId). That case is
the `none` branch. -/
def userFindById (users : UserDB) (sub : Option String) : Option Account :=
  match sub with
  | none => none
  | some s => users.find? (fun u => u.id == s)

/-- Model of `Otp.findOne({ email })`. Note: no TTL condition is applied at
lookup time; the query returns whatever document is physically present. -/
def otpFindOne (otps : OtpDB) (email : String) : Option OtpRecord :=
  otps.find? (fun r => r.email == email)

/-- Model of `Otp.deleteMany({ email })`. -/
def otpDeleteMany (otps : OtpDB) (email : String) : OtpDB :=
  otps.filter (fun r => !(r.email == email))

/-- `expires: 600` on `createdAt` in the Otp schema, in milliseconds. -/
def OTP_TTL_MS : Nat := 600 * 1000

/-- Session tokens are signed with `expiresIn: '10m'`, and the reported
`expiresAt` is `Date.now() + 10 * 60 * 1000`. -/
def TOKEN_TTL_MS : Nat := 10 * 60 * 1000

/-- The CSRF cache stores its token for 5 minutes (`5 * 60 * 1000`). -/
def CSRF_TTL_MS : Nat := 5 * 60 * 1000

/-- MongoDB's TTL monitor: a background sweep that removes every document
whose `createdAt` lies at least the TTL in the past. It runs periodically
(roughly once a minute), not at the moment of expiry; between the expiry
instant and the next sweep the document remains physically present. -/
def ttlSweep (now : Nat) (otps : OtpDB) : OtpDB :=
  otps.filter (fun r => decide (now < r.createdAt + OTP_TTL_MS))

/-- Decoded JWT claim sets minted by this server: `{stage:'otp', email}` for
the pending second-factor stage, `{sub, email}` once authenticated. -/
inductive Payload where
  | pending (email : String)
  | authed (sub : String) (email : String)
deriving Repr, DecidableEq

/-- `decoded.sub`: present only on authenticated payloads; for a pending
payload the field is absent (`undefined`). -/
def subOf : Payload → Option String
  | .pending _ => none
  | .authed s _ => some s

/-- A signed JWT as this server sees it: the payload, the issued-at and
expiry timestamps, and whether its signature verifies under `JWT_SECRET`. -/
structure SignedToken where
  payload : Payload
  iat : Nat
  exp : Nat
  validSig : Bool
deriving Repr, DecidableEq

/-- Model of `jwt.sign(payload, JWT_SECRET, { expiresIn: '10m' })` at time
`now`. -/
def jwtSign (p : Payload) (now : Nat) : SignedToken :=
  { payload := p, iat := now, exp := now + TOKEN_TTL_MS, validSig := true }

/-- Model of `jwt.verify(token, JWT_SECRET)` at time `now`: returns the
decoded payload when the signature is valid and the token unexpired,
and throws (here: `none`) otherwise. It checks signature and expiry only;
it does not inspect the payload's fields. -/
def jwtVerify (t : SignedToken) (now : Nat) : Option Payload :=
  if t.validSig && decide (now < t.exp) then some t.payload else none

/-- Result of an express middleware: either a terminal error response or
`next()` with the decoded token attached to the request. -/
inductive MwRes where
  | err (status : Nat) (msg : String)
  | ok (decoded : Payload)
deriving Repr, DecidableEq

/-- The `verifyToken` middleware: 401 when the Authorization header is
missing or not a Bearer token (modelled by `none`), 401 when `jwt.verify`
throws, otherwise `req.user = decoded` and `next()`. -/
def verifyToken (authHeader : Option SignedToken) (now : Nat) : MwRes :=
  match authHeader with
  | none => .err 401 "No token provided"
  | some t =>
    match jwtVerify t now with
    | none => .err 401 "Invalid or expired token"
    | some decoded => .ok decoded

/-- Response of `POST /verify-token`. -/
inductive TokRes where
  | err (status : Nat) (msg : String)
  | ok (userId userName userEmail : String)
deriving Repr, DecidableEq

/-- Whether a `/verify-token` response is the success response. -/
def TokRes.isOk : TokRes → Bool
  | .ok _ _ _ => true
  | .err _ _ => false

/-- Response of `POST /refresh-token` (and the body shape of a successful
`/verify-otp`). -/
inductive RefreshRes where
  | err (status : Nat) (msg : String)
  | ok (token : SignedToken) (expiresAt : Nat) (userId userName userEmail : String)
deriving Repr, DecidableEq

/-- Whether a `/refresh-token` response is the success response. -/
def RefreshRes.isOk : RefreshRes → Bool
  | .ok _ _ _ _ _ => true
  | .err _ _ => false

/-- `POST /verify-token`: the `verifyToken` middleware, then
`User.findById(req.user.sub)`; 404 when absent, else `{valid:true, user}`. -/
def verifyTokenRoute (users : UserDB) (authHeader : Option SignedToken)
    (now : Nat) : TokRes :=
  match verifyToken authHeader now with
  | .err s m => .err s m
  | .ok decoded =>
    match userFindById users (subOf decoded) with
    | none => .err 404 "User not found"
    | some u => .ok u.id u.name u.email

/-- `POST /refresh-token`: the `verifyToken` middleware, then
`User.findById(req.user.sub)`; 404 when absent, else a freshly signed
authenticated token with `expiresAt = Date.now() + 10 * 60 * 1000`. -/
def refreshTokenRoute (users : UserDB) (authHeader : Option SignedToken)
    (now : Nat) : RefreshRes :=
  match verifyToken authHeader now with
  | .err s m => .err s m
  | .ok decoded =>
    match userFindById users (subOf decoded) with
    | none => .err 404 "User not found"
    | some u =>
      .ok (jwtSign (.authed u.id u.email) now) (now + TOKEN_TTL_MS) u.id u.name u.email

/-- Model of zod's `.email()` string check. The exact accepted language of
zod's email regular expression does not matter to any property below (each
property either quantifies over all strings or reuses one fixed email across
calls), so the check is abstracted to a simple, deterministic shape test:
exactly one `@`, a nonempty local part, and a domain containing a dot. -/
def zodIsEmail (s : String) : Bool :=
  let cs := s.toList
  let l := cs.takeWhile (fun c => !(c == '@'))
  match cs.dropWhile (fun c => !(c == '@')) with
  | '@' :: d => !l.isEmpty && !d.isEmpty && d.contains '.' && !d.contains '@'
  | _ => false

/-- The `loginSchema` body validation: a well-formed email and a password of
at least 6 characters. -/
def loginParseOk (email password : String) : Bool :=
  zodIsEmail email && decide (6 ≤ password.length)

/-- The `verifyOtpSchema` body validation: a well-formed email and a code of
at least 4 characters. -/
def verifyOtpParseOk (email code : String) : Bool :=
  zodIsEmail email && decide (4 ≤ code.length)

/-- `String(Math.floor(100000 + Math.random() * 900000))`: the random draw is
modelled by `rand`, reduced into the range of the expression. The result is
always the decimal representation of a number in `[100000, 999999]`. -/
def genCode (rand : Nat) : String :=
  Nat.repr (100000 + rand % 900000)

/-- The observable effects of the `login` handler that the claims speak
about, in the order the handler performs them. -/
inductive LoginEvent where
  | otpDeleteMany
  | otpCreate
  | mailDispatch
  | signPendingToken
deriving Repr, DecidableEq

/-- Response of `POST /login`. -/
inductive LoginResp where
  | err (status : Nat) (msg : String)
  | otpStep (tempToken : SignedToken) (previewUrl : String)
deriving Repr, DecidableEq

/-- Outcome of one `login` request: the response, the Otp collection after
the request, and the trace of the handler's OTP/mail/token effects in
execution order (empty when none of the four effects was reached). -/
structure LoginOutcome where
  resp : LoginResp
  otps : OtpDB
  trace : List LoginEvent
deriving Repr, DecidableEq

/-- `POST /login` (after the CSRF gate, which is modelled separately as the
`validateCSRF` middleware). In source order: zod validation; account lookup
(401 on absence); `bcrypt.compare` (401 on mismatch); generate a 6-digit
code; `Otp.deleteMany({email})`; `Otp.create({email, code})` with
`createdAt = now`; dispatch the code by mail; only on successful dispatch,
sign the pending token and respond. A thrown mail error reaches the catch
block, which responds 400 without rolling anything back. `cmp` stands for
`bcrypt.compare`, `rand` for the random draw, `mailOk` for whether the mail
dispatch succeeds, `preview` for `nodemailer.getTestMessageUrl`. -/
def loginRoute (users : UserDB) (otps : OtpDB) (cmp : String → String → Bool)
    (rand : Nat) (mailOk : Bool) (preview : String) (now : Nat)
    (email password : String) : LoginOutcome :=
  if loginParseOk email password then
    match userFindOne users email with
    | none => ⟨.err 401 "Invalid email or password", otps, []⟩
    | some u =>
      if cmp password u.passwordHash then
        let code := genCode rand
        let otps2 := ⟨email, code, now⟩ :: otpDeleteMany otps email
        if mailOk then
          ⟨.otpStep (jwtSign (.pending email) now) preview, otps2,
            [.otpDeleteMany, .otpCreate, .mailDispatch, .signPendingToken]⟩
        else
          ⟨.err 400 "Request failed", otps2,
            [.otpDeleteMany, .otpCreate, .mailDispatch]⟩
      else ⟨.err 401 "Invalid email or password", otps, []⟩
  else ⟨.err 400 "Validation failed", otps, []⟩

/-- Response of `POST /verify-otp`. -/
inductive VerifyOtpResp where
  | err (status : Nat) (msg : String)
  | ok (token : SignedToken) (expiresAt : Nat) (userId userName userEmail : String)
deriving Repr, DecidableEq

/-- `POST /verify-otp` (after the CSRF gate): zod validation;
`Otp.findOne({email})`; 401 when absent or the code differs;
`Otp.deleteMany({email})`; `User.findOne({email})`, 404 when absent;
otherwise sign the authenticated token and respond. Returns the response
together with the Otp collection after the request. -/
def verifyOtpRoute (users : UserDB) (otps : OtpDB) (now : Nat)
    (email code : String) : VerifyOtpResp × OtpDB :=
  if verifyOtpParseOk email code then
    match otpFindOne otps email with
    | none => (.err 401 "Invalid or expired code", otps)
    | some record =>
      if record.code == code then
        let otps1 := otpDeleteMany otps email
        match userFindOne users email with
        | none => (.err 404 "User not found", otps1)
        | some u =>
          (.ok (jwtSign (.authed u.id u.email) now) (now + TOKEN_TTL_MS)
            u.id u.name u.email, otps1)
      else (.err 401 "Invalid or expired code", otps)
  else (.err 400 "Validation failed", otps)

/-- The in-memory `csrfTokens` Map: sessionId to token, most recent entry
first; `Map.set` overwrites the entry for an existing key. -/
abbrev CsrfStore := List (String × String)

/-- `csrfTokens.get(sessionId)`. -/
def csrfGet (m : CsrfStore) (sid : String) : Option String :=
  (m.find? (fun p => p.1 == sid)).map (fun p => p.2)

/-- `csrfTokens.set(sessionId, token)`: overwrites any prior entry. -/
def csrfSet (m : CsrfStore) (sid tok : String) : CsrfStore :=
  (sid, tok) :: m.filter (fun p => !(p.1 == sid))

/-- `csrfTokens.delete(sessionId)`. -/
def csrfDelete (m : CsrfStore) (sid : String) : CsrfStore :=
  m.filter (fun p => !(p.1 == sid))

/-- The CSRF subsystem state: the token Map together with the pending
`setTimeout` deletions (fire time, sessionId). A scheduled timer is never
cancelled by later requests. -/
structure CsrfState where
  tokens : CsrfStore
  timers : List (Nat × String)
deriving Repr, DecidableEq

/-- `req.headers['x-session-id'] || req.ip`: the header when present and
truthy (JavaScript treats the empty string as falsy), else the caller IP. -/
def sessionIdOf (hdrSession : Option String) (ip : String) : String :=
  match hdrSession with
  | some s => if s == "" then ip else s
  | none => ip

/-- `GET /csrf-token` at time `now` for session `sid`, storing the freshly
generated `tok`: `csrfTokens.set(sid, tok)` and
`setTimeout(() => csrfTokens.delete(sid), 5 * 60 * 1000)`. -/
def csrfIssue (st : CsrfState) (now : Nat) (sid tok : String) : CsrfState :=
  { tokens := csrfSet st.tokens sid tok,
    timers := st.timers ++ [(now + CSRF_TTL_MS, sid)] }

/-- The event-loop timer queue at time `now`: every scheduled deletion whose
fire time has been reached runs `csrfTokens.delete(sessionId)`, uncondition-
ally deleting whatever token is stored for that sessionId at that moment. -/
def fireTimers (st : CsrfState) (now : Nat) : CsrfState :=
  { tokens := (st.timers.filter (fun t => decide (t.1 ≤ now))).foldl
      (fun m t => csrfDelete m t.2) st.tokens,
    timers := st.timers.filter (fun t => decide (now < t.1)) }

/-- Result of the `validateCSRF` middleware. -/
inductive CsrfRes where
  | err (status : Nat) (msg : String)
  | next
deriving Repr, DecidableEq

/-- Whether a middleware result is a Forbidden (403) rejection. -/
def CsrfRes.isForbidden : CsrfRes → Bool
  | .err s _ => s == 403
  | .next => false

/-- The `validateCSRF` middleware: reads the `X-CSRF-Token` header (JS
falsiness: a missing or empty header yields the 403 "CSRF token required"
response), computes the sessionId from the `X-Session-Id` header with IP
fallback, and then requires a stored token that is truthy and strictly equal
to the presented one (`!storedToken || storedToken !== token`). -/
def validateCSRF (tokens : CsrfStore) (hdrToken hdrSession : Option String)
    (ip : String) : CsrfRes :=
  match hdrToken with
  | none => .err 403 "CSRF token required"
  | some token =>
    if token == "" then .err 403 "CSRF token required"
    else
      match csrfGet tokens (sessionIdOf hdrSession ip) with
      | none => .err 403 "Invalid CSRF token"
      | some storedToken =>
        if storedToken == "" || !(storedToken == token) then
          .err 403 "Invalid CSRF token"
        else .next

/-! ### Helper lemmas -/

/-- After `Otp.deleteMany({email})`, `Otp.findOne({email})` finds nothing. -/
theorem otpFindOne_deleteMany (otps : OtpDB) (email : String) :
    otpFindOne (otpDeleteMany otps email) email = none := by
  simp only [otpFindOne, otpDeleteMany, List.find?_eq_none, List.mem_filter]
  rintro x ⟨-, hx⟩
  simpa using hx

/-- After `Otp.deleteMany({email})`, no record for that email remains. -/
theorem filter_otpDeleteMany (otps : OtpDB) (email : String) :
    (otpDeleteMany otps email).filter (fun r => r.email == email) = [] := by
  simp only [otpDeleteMany, List.filter_filter]
  refine List.filter_eq_nil_iff.mpr ?_
  intro a _
  cases h : (a.email == email) <;> simp [h]

/-- A successful `verify-otp` response implies the body validated and the
resulting Otp collection is the input with every record for the email
deleted. -/
theorem verifyOtp_ok_inv (users : UserDB) (otps : OtpDB) (now : Nat)
    (email code : String) (tok : SignedToken) (ea : Nat) (uid un ue : String)
    (h : (verifyOtpRoute users otps now email code).1 = .ok tok ea uid un ue) :
    verifyOtpParseOk email code = true ∧
    (verifyOtpRoute users otps now email code).2 = otpDeleteMany otps email := by
  unfold verifyOtpRoute at h ⊢
  split at h
  · rename_i hparse
    split at h
    · simp at h
    · rename_i record hrec
      split at h
      · rename_i hcode
        split at h
        · simp at h
        · rename_i u hu
          simp [hparse, hrec, hcode, hu]
      · simp at h
  · simp at h

/-- Deleting a key removes it from the CSRF store. -/
theorem csrfGet_delete_self (m : CsrfStore) (sid : String) :
    csrfGet (csrfDelete m sid) sid = none := by
  have h : (csrfDelete m sid).find? (fun p => p.1 == sid) = none := by
    simp only [csrfDelete, List.find?_eq_none, List.mem_filter]
    rintro x ⟨-, hx⟩
    simpa using hx
  simp [csrfGet, h]

/-- Deleting any key preserves the absence of a key. -/
theorem csrfGet_delete_of_none (m : CsrfStore) (s sid : String)
    (h : csrfGet m sid = none) : csrfGet (csrfDelete m s) sid = none := by
  simp only [csrfGet, Option.map_eq_none'] at h ⊢
  rw [List.find?_eq_none] at h ⊢
  intro x hx
  exact h x (List.mem_of_mem_filter hx)

/-- Running any batch of timer deletions preserves the absence of a key. -/
theorem csrfGet_foldl_of_none (l : List (Nat × String)) (m : CsrfStore)
    (sid : String) (h : csrfGet m sid = none) :
    csrfGet (l.foldl (fun acc t => csrfDelete acc t.2) m) sid = none := by
  induction l generalizing m with
  | nil => exact h
  | cons t l ih => exact ih _ (csrfGet_delete_of_none _ _ _ h)

/-- If some timer in the batch targets `sid`, the key is gone afterwards. -/
theorem csrfGet_foldl_of_mem (l : List (Nat × String)) (m : CsrfStore)
    (sid : String) (h : ∃ t ∈ l, t.2 = sid) :
    csrfGet (l.foldl (fun acc t => csrfDelete acc t.2) m) sid = none := by
  induction l generalizing m with
  | nil => simp at h
  | cons t l ih =>
    rcases h with ⟨t', ht', hsid⟩
    rcases List.mem_cons.mp ht' with h1 | h2
    · subst h1
      rw [List.foldl_cons, hsid]
      exact csrfGet_foldl_of_none l _ _ (csrfGet_delete_self m sid)
    · exact ih _ ⟨t', h2, hsid⟩

/-- A due timer for `sid` deletes whatever token is stored for `sid` when the
event loop runs at time `now`. -/
theorem fireTimers_deletes (st : CsrfState) (now fireAt : Nat) (sid : String)
    (hmem : (fireAt, sid) ∈ st.timers) (hdue : fireAt ≤ now) :
    csrfGet (fireTimers st now).tokens sid = none := by
  refine csrfGet_foldl_of_mem _ _ _ ⟨(fireAt, sid), ?_, rfl⟩
  simp [List.mem_filter, hmem, hdue]

/-- Once every record for the email is past its TTL, a background sweep
leaves `Otp.findOne({email})` with nothing. -/
theorem otpFindOne_ttlSweep (otps : OtpDB) (now : Nat) (email : String)
    (h : ∀ rec ∈ otps, rec.email = email → rec.createdAt + OTP_TTL_MS ≤ now) :
    otpFindOne (ttlSweep now otps) email = none := by
  simp only [otpFindOne, ttlSweep, List.find?_eq_none, List.mem_filter]
  rintro x ⟨hx, hlt⟩ hbeq
  have hxe : x.email = email := by simpa using hbeq
  have hle := h x hx hxe
  simp only [decide_eq_true_eq] at hlt
  omega

/-! ### Claims -/

/-- C1: a pending-stage token (payload `{stage:'otp', email}`, signed but
carrying no `sub` claim) is rejected by both `POST /verify-token` and
`POST /refresh-token`: whatever the user database, the presentation time,
and the token's signature/expiry state, neither endpoint returns its success
response, so `refresh-token` never mints a new authenticated token from a
pending token. (When unexpired, `jwt.verify` does succeed on it, but
`User.findById(undefined)` matches no account and both endpoints answer
404.) -/
theorem pending_token_never_accepted (users : UserDB) (t : SignedToken)
    (now : Nat) (e : String) (hp : t.payload = .pending e) :
    (verifyTokenRoute users (some t) now).isOk = false ∧
    (refreshTokenRoute users (some t) now).isOk = false := by
  unfold verifyTokenRoute refreshTokenRoute verifyToken jwtVerify
  cases h : (t.validSig && decide (now < t.exp))
  · simp [h, TokRes.isOk, RefreshRes.isOk]
  · simp [h, hp, subOf, userFindById, TokRes.isOk, RefreshRes.isOk]

/-- Witness for C1: a concrete, freshly signed pending token presented to
both endpoints over a nonempty user database. -/
theorem pending_token_never_accepted_w :
    (verifyTokenRoute [⟨"u1", "Ann", "ann@x.com", "h1"⟩]
        (some (jwtSign (.pending "ann@x.com") 0)) 1).isOk = false ∧
    (refreshTokenRoute [⟨"u1", "Ann", "ann@x.com", "h1"⟩]
        (some (jwtSign (.pending "ann@x.com") 0)) 1).isOk = false :=
  pending_token_never_accepted _ _ 1 "ann@x.com" rfl

/-- C2: an OTP is single-use. Whenever a `verify-otp` call succeeds, the
stored record for that email is gone from the resulting collection, and an
immediately repeated call with the same email and code (at any later time)
answers 401 Unauthorized and leaves the collection unchanged. -/
theorem otp_single_use (users : UserDB) (otps : OtpDB) (now now2 : Nat)
    (email code : String) (tok : SignedToken) (ea : Nat) (uid un ue : String)
    (h : (verifyOtpRoute users otps now email code).1 = .ok tok ea uid un ue) :
    otpFindOne (verifyOtpRoute users otps now email code).2 email = none ∧
    verifyOtpRoute users (verifyOtpRoute users otps now email code).2 now2 email code =
      (.err 401 "Invalid or expired code",
       (verifyOtpRoute users otps now email code).2) := by
  obtain ⟨hparse, hst⟩ :=
    verifyOtp_ok_inv users otps now email code tok ea uid un ue h
  rw [hst]
  refine ⟨otpFindOne_deleteMany _ _, ?_⟩
  simp [verifyOtpRoute, hparse, otpFindOne_deleteMany]

/-- Witness for C2: a concrete successful verification followed by its
repeat. -/
theorem otp_single_use_w :
    otpFindOne (verifyOtpRoute [⟨"u1", "Ann", "ann@x.com", "h1"⟩]
        [⟨"ann@x.com", "123456", 0⟩] 5 "ann@x.com" "123456").2 "ann@x.com" = none ∧
    verifyOtpRoute [⟨"u1", "Ann", "ann@x.com", "h1"⟩]
        (verifyOtpRoute [⟨"u1", "Ann", "ann@x.com", "h1"⟩]
          [⟨"ann@x.com", "123456", 0⟩] 5 "ann@x.com" "123456").2
        6 "ann@x.com" "123456" =
      (.err 401 "Invalid or expired code",
       (verifyOtpRoute [⟨"u1", "Ann", "ann@x.com", "h1"⟩]
          [⟨"ann@x.com", "123456", 0⟩] 5 "ann@x.com" "123456").2) :=
  otp_single_use [⟨"u1", "Ann", "ann@x.com", "h1"⟩] [⟨"ann@x.com", "123456", 0⟩]
    5 6 "ann@x.com" "123456"
    (jwtSign (.authed "u1" "ann@x.com") 5) (5 + TOKEN_TTL_MS) "u1" "Ann" "ann@x.com"
    (by decide)

/-- C3: a successful login first runs `Otp.deleteMany({email})` and then
creates the fresh record, so at most one live record per email survives any
login: after two consecutive successful logins for the same email, the
collection holds exactly the second record for that email, the first code is
rejected (401) even though its original TTL window has not lapsed (the
rejection holds at every verification time `t3`), and the second code
verifies. `hne` rules out the two independent random draws colliding. -/
theorem otp_superseded (users : UserDB) (otps : OtpDB) (u : Account)
    (cmp : String → String → Bool) (r1 r2 : Nat) (pv1 pv2 : String)
    (t1 t2 t3 : Nat) (email password : String)
    (hu : userFindOne users email = some u)
    (hcmp : cmp password u.passwordHash = true)
    (hparse : loginParseOk email password = true)
    (hne : genCode r1 ≠ genCode r2)
    (hlen1 : 4 ≤ (genCode r1).length)
    (hlen2 : 4 ≤ (genCode r2).length) :
    ((loginRoute users
        (loginRoute users otps cmp r1 true pv1 t1 email password).otps
        cmp r2 true pv2 t2 email password).otps.filter
          (fun rec => rec.email == email) = [⟨email, genCode r2, t2⟩]) ∧
    (verifyOtpRoute users
        (loginRoute users
          (loginRoute users otps cmp r1 true pv1 t1 email password).otps
          cmp r2 true pv2 t2 email password).otps
        t3 email (genCode r1)).1 = .err 401 "Invalid or expired code" ∧
    (verifyOtpRoute users
        (loginRoute users
          (loginRoute users otps cmp r1 true pv1 t1 email password).otps
          cmp r2 true pv2 t2 email password).otps
        t3 email (genCode r2)).1 =
      .ok (jwtSign (.authed u.id u.email) t3) (t3 + TOKEN_TTL_MS)
        u.id u.name u.email := by
  have hz : zodIsEmail email = true :=
    ((Bool.and_eq_true _ _).mp hparse).1
  have ho1 : (loginRoute users otps cmp r1 true pv1 t1 email password).otps =
      ⟨email, genCode r1, t1⟩ :: otpDeleteMany otps email := by
    simp [loginRoute, hparse, hu, hcmp]
  have ho2 : (loginRoute users
      (loginRoute users otps cmp r1 true pv1 t1 email password).otps
      cmp r2 true pv2 t2 email password).otps =
      ⟨email, genCode r2, t2⟩ ::
        otpDeleteMany ((loginRoute users otps cmp r1 true pv1 t1 email password).otps) email := by
    simp [loginRoute, hparse, hu, hcmp]
  have hfind : otpFindOne
      ((loginRoute users
        (loginRoute users otps cmp r1 true pv1 t1 email password).otps
        cmp r2 true pv2 t2 email password).otps) email =
      some ⟨email, genCode r2, t2⟩ := by
    simp [ho2, otpFindOne]
  refine ⟨?_, ?_, ?_⟩
  · rw [ho2]
    simp [filter_otpDeleteMany]
  · have hp1 : verifyOtpParseOk email (genCode r1) = true := by
      simp [verifyOtpParseOk, hz, hlen1]
    have hcode : ((⟨email, genCode r2, t2⟩ : OtpRecord).code == genCode r1) = false := by
      simp only [beq_eq_false_iff_ne, ne_eq]
      exact fun hcontra => hne hcontra.symm
    simp [verifyOtpRoute, hp1, hfind, hcode]
  · have hp2 : verifyOtpParseOk email (genCode r2) = true := by
      simp [verifyOtpParseOk, hz, hlen2]
    simp [verifyOtpRoute, hp2, hfind, hu]

/-- Witness for C3: a concrete account logging in twice; the collection ends
with only the second record, code "100000" from the first login is rejected,
code "100001" from the second verifies. -/
theorem otp_superseded_w :
    ((loginRoute [⟨"u1", "Ann", "ann@x.com", "h1"⟩]
        (loginRoute [⟨"u1", "Ann", "ann@x.com", "h1"⟩] [] (fun _ _ => true)
          0 true "p1" 10 "ann@x.com" "secret1").otps
        (fun _ _ => true) 1 true "p2" 20 "ann@x.com" "secret1").otps.filter
          (fun rec => rec.email == "ann@x.com") = [⟨"ann@x.com", genCode 1, 20⟩]) ∧
    (verifyOtpRoute [⟨"u1", "Ann", "ann@x.com", "h1"⟩]
        (loginRoute [⟨"u1", "Ann", "ann@x.com", "h1"⟩]
          (loginRoute [⟨"u1", "Ann", "ann@x.com", "h1"⟩] [] (fun _ _ => true)
            0 true "p1" 10 "ann@x.com" "secret1").otps
          (fun _ _ => true) 1 true "p2" 20 "ann@x.com" "secret1").otps
        30 "ann@x.com" (genCode 0)).1 = .err 401 "Invalid or expired code" ∧
    (verifyOtpRoute [⟨"u1", "Ann", "ann@x.com", "h1"⟩]
        (loginRoute [⟨"u1", "Ann", "ann@x.com", "h1"⟩]
          (loginRoute [⟨"u1", "Ann", "ann@x.com", "h1"⟩] [] (fun _ _ => true)
            0 true "p1" 10 "ann@x.com" "secret1").otps
          (fun _ _ => true) 1 true "p2" 20 "ann@x.com" "secret1").otps
        30 "ann@x.com" (genCode 1)).1 =
      .ok (jwtSign (.authed "u1" "ann@x.com") 30) (30 + TOKEN_TTL_MS)
        "u1" "Ann" "ann@x.com" :=
  otp_superseded [⟨"u1", "Ann", "ann@x.com", "h1"⟩] [] ⟨"u1", "Ann", "ann@x.com", "h1"⟩
    (fun _ _ => true) 0 1 "p1" "p2" 10 20 30 "ann@x.com" "secret1"
    (by decide) rfl (by decide) (by decide) (by decide) (by decide)

/-- C4 counterexample: an OTP record that is still physically present past
its 600-second TTL is not treated as absent — `verify-otp` performs no TTL
check at lookup time, so at t = TTL + 1 ms (before the background sweep has
removed the record) the stale code is accepted and an authenticated token is
minted, where the claim requires rejection. -/
theorem otp_ttl_counterexample :
    (verifyOtpRoute [⟨"u1", "Ann", "ann@x.com", "h1"⟩]
        [⟨"ann@x.com", "123456", 0⟩] (OTP_TTL_MS + 1) "ann@x.com" "123456").1 =
      .ok (jwtSign (.authed "u1" "ann@x.com") (OTP_TTL_MS + 1))
        (OTP_TTL_MS + 1 + TOKEN_TTL_MS) "u1" "Ann" "ann@x.com" := by decide

/-- C4 (amended): CSRF tokens die exactly as claimed — the deletion timer
scheduled at issuance fires at TTL and any later validation is rejected.
OTP expiry, by contrast, is only the store's background TTL sweep: once a
sweep has run after the record's 600-second TTL, the code is rejected like
an absent record, but `verify-otp` itself performs no lazy TTL check, so
until that sweep a physically present record past its TTL is still
accepted. -/
theorem ttl_expiry (users : UserDB) (otps : OtpDB) (now : Nat)
    (email code : String)
    (hparse : verifyOtpParseOk email code = true)
    (hexp : ∀ rec ∈ otps, rec.email = email → rec.createdAt + OTP_TTL_MS ≤ now)
    (st : CsrfState) (t0 fnow : Nat) (tok ip : String)
    (hdrSession : Option String)
    (htok : (tok == "") = false)
    (hfire : t0 + CSRF_TTL_MS ≤ fnow) :
    (verifyOtpRoute users (ttlSweep now otps) now email code).1 =
      .err 401 "Invalid or expired code" ∧
    csrfGet (fireTimers (csrfIssue st t0 (sessionIdOf hdrSession ip) tok) fnow).tokens
      (sessionIdOf hdrSession ip) = none ∧
    validateCSRF
      (fireTimers (csrfIssue st t0 (sessionIdOf hdrSession ip) tok) fnow).tokens
      (some tok) hdrSession ip = .err 403 "Invalid CSRF token" := by
  have hs : otpFindOne (ttlSweep now otps) email = none :=
    otpFindOne_ttlSweep otps now email hexp
  have hg : csrfGet
      (fireTimers (csrfIssue st t0 (sessionIdOf hdrSession ip) tok) fnow).tokens
      (sessionIdOf hdrSession ip) = none := by
    refine fireTimers_deletes _ fnow (t0 + CSRF_TTL_MS) _ ?_ hfire
    simp [csrfIssue]
  refine ⟨?_, hg, ?_⟩
  · simp [verifyOtpRoute, hparse, hs]
  · simp [validateCSRF, htok, hg]

/-- Witness for the amended C4: a concrete record swept at exactly its TTL
and a concrete CSRF token validated after its 5-minute timer fired. -/
theorem ttl_expiry_w :
    (verifyOtpRoute [⟨"u1", "Ann", "ann@x.com", "h1"⟩]
        (ttlSweep OTP_TTL_MS [⟨"ann@x.com", "123456", 0⟩]) OTP_TTL_MS
        "ann@x.com" "123456").1 = .err 401 "Invalid or expired code" ∧
    csrfGet (fireTimers (csrfIssue ⟨[], []⟩ 0 (sessionIdOf (some "s1") "9.9.9.9") "tokA")
        CSRF_TTL_MS).tokens (sessionIdOf (some "s1") "9.9.9.9") = none ∧
    validateCSRF
      (fireTimers (csrfIssue ⟨[], []⟩ 0 (sessionIdOf (some "s1") "9.9.9.9") "tokA")
        CSRF_TTL_MS).tokens
      (some "tokA") (some "s1") "9.9.9.9" = .err 403 "Invalid CSRF token" :=
  ttl_expiry [⟨"u1", "Ann", "ann@x.com", "h1"⟩] [⟨"ann@x.com", "123456", 0⟩]
    OTP_TTL_MS "ann@x.com" "123456" (by decide) (by decide)
    ⟨[], []⟩ 0 CSRF_TTL_MS "tokA" "9.9.9.9" (some "s1") (by decide) (by decide)

/-- C5 counterexample: in a concrete login whose mail dispatch fails, the
handler attempted dispatch (the trace records it) without ever signing the
pending token — the trace contains `mailDispatch` but no `signPendingToken`
and the response carries no token — so it is false that the pending session
token already exists before mail dispatch is attempted. The OTP record, by
contrast, does already exist and survives the failure. -/
theorem login_token_before_mail_counterexample :
    (loginRoute [⟨"u1", "Ann", "ann@x.com", "h1"⟩] [] (fun _ _ => true)
        0 false "pv" 7 "ann@x.com" "secret1").trace =
      [.otpDeleteMany, .otpCreate, .mailDispatch] ∧
    LoginEvent.signPendingToken ∉
      (loginRoute [⟨"u1", "Ann", "ann@x.com", "h1"⟩] [] (fun _ _ => true)
        0 false "pv" 7 "ann@x.com" "secret1").trace ∧
    (loginRoute [⟨"u1", "Ann", "ann@x.com", "h1"⟩] [] (fun _ _ => true)
        0 false "pv" 7 "ann@x.com" "secret1").resp = .err 400 "Request failed" ∧
    otpFindOne (loginRoute [⟨"u1", "Ann", "ann@x.com", "h1"⟩] [] (fun _ _ => true)
        0 false "pv" 7 "ann@x.com" "secret1").otps "ann@x.com" =
      some ⟨"ann@x.com", genCode 0, 7⟩ := by decide

/-- C5 (amended): during login the OTP record is created before mail
dispatch is attempted, and a failed dispatch does not roll it back — the
handler answers 400 and the freshly created record stays verifiable for
alternate delivery. The pending session token, however, is minted only
after a successful dispatch (in the successful trace it follows
`mailDispatch`), so no pending token exists when delivery fails. -/
theorem otp_survives_mail_failure (users : UserDB) (otps : OtpDB) (u : Account)
    (cmp : String → String → Bool) (r : Nat) (pv : String) (t t' : Nat)
    (email password : String)
    (hu : userFindOne users email = some u)
    (hcmp : cmp password u.passwordHash = true)
    (hparse : loginParseOk email password = true)
    (hlen : 4 ≤ (genCode r).length) :
    (loginRoute users otps cmp r false pv t email password).resp =
      .err 400 "Request failed" ∧
    (loginRoute users otps cmp r false pv t email password).trace =
      [.otpDeleteMany, .otpCreate, .mailDispatch] ∧
    otpFindOne (loginRoute users otps cmp r false pv t email password).otps email =
      some ⟨email, genCode r, t⟩ ∧
    (verifyOtpRoute users
        (loginRoute users otps cmp r false pv t email password).otps
        t' email (genCode r)).1 =
      .ok (jwtSign (.authed u.id u.email) t') (t' + TOKEN_TTL_MS)
        u.id u.name u.email ∧
    (loginRoute users otps cmp r true pv t email password).trace =
      [.otpDeleteMany, .otpCreate, .mailDispatch, .signPendingToken] := by
  have hz : zodIsEmail email = true := ((Bool.and_eq_true _ _).mp hparse).1
  have ho : (loginRoute users otps cmp r false pv t email password).otps =
      ⟨email, genCode r, t⟩ :: otpDeleteMany otps email := by
    simp [loginRoute, hparse, hu, hcmp]
  have hfind : otpFindOne
      ((loginRoute users otps cmp r false pv t email password).otps) email =
      some ⟨email, genCode r, t⟩ := by
    simp [ho, otpFindOne]
  refine ⟨?_, ?_, hfind, ?_, ?_⟩
  · simp [loginRoute, hparse, hu, hcmp]
  · simp [loginRoute, hparse, hu, hcmp]
  · have hp : verifyOtpParseOk email (genCode r) = true := by
      simp [verifyOtpParseOk, hz, hlen]
    simp [verifyOtpRoute, hp, hfind, hu]
  · simp [loginRoute, hparse, hu, hcmp]

/-- Witness for the amended C5: a concrete failed-mail login followed by a
successful verification of the surviving code. -/
theorem otp_survives_mail_failure_w :
    (loginRoute [⟨"u1", "Ann", "ann@x.com", "h1"⟩] [] (fun _ _ => true)
        3 false "pv" 40 "ann@x.com" "secret1").resp = .err 400 "Request failed" ∧
    (loginRoute [⟨"u1", "Ann", "ann@x.com", "h1"⟩] [] (fun _ _ => true)
        3 false "pv" 40 "ann@x.com" "secret1").trace =
      [.otpDeleteMany, .otpCreate, .mailDispatch] ∧
    otpFindOne (loginRoute [⟨"u1", "Ann", "ann@x.com", "h1"⟩] [] (fun _ _ => true)
        3 false "pv" 40 "ann@x.com" "secret1").otps "ann@x.com" =
      some ⟨"ann@x.com", genCode 3, 40⟩ ∧
    (verifyOtpRoute [⟨"u1", "Ann", "ann@x.com", "h1"⟩]
        (loginRoute [⟨"u1", "Ann", "ann@x.com", "h1"⟩] [] (fun _ _ => true)
          3 false "pv" 40 "ann@x.com" "secret1").otps
        50 "ann@x.com" (genCode 3)).1 =
      .ok (jwtSign (.authed "u1" "ann@x.com") 50) (50 + TOKEN_TTL_MS)
        "u1" "Ann" "ann@x.com" ∧
    (loginRoute [⟨"u1", "Ann", "ann@x.com", "h1"⟩] [] (fun _ _ => true)
        3 true "pv" 40 "ann@x.com" "secret1").trace =
      [.otpDeleteMany, .otpCreate, .mailDispatch, .signPendingToken] :=
  otp_survives_mail_failure [⟨"u1", "Ann", "ann@x.com", "h1"⟩] []
    ⟨"u1", "Ann", "ann@x.com", "h1"⟩ (fun _ _ => true) 3 "pv" 40 50
    "ann@x.com" "secret1" (by decide) rfl (by decide) (by decide)

/-- C6: a valid authenticated token (minted at `t0`, presented unexpired at
`now ≥ t0`) whose account still exists is refreshed to a token with the same
subject and `expiresAt = now + 10 minutes`, which is strictly greater than
the presented token's issuance time; if the account has vanished, the
endpoint answers 404 NotFound. -/
theorem refresh_token_fresh_window (users : UserDB) (sub email : String)
    (t0 now : Nat) (hiat : t0 ≤ now) (hexp : now < t0 + TOKEN_TTL_MS) :
    (∀ u, userFindById users (some sub) = some u →
      refreshTokenRoute users (some (jwtSign (.authed sub email) t0)) now =
        .ok (jwtSign (.authed sub u.email) now) (now + TOKEN_TTL_MS)
          sub u.name u.email ∧
      t0 < now + TOKEN_TTL_MS) ∧
    (userFindById users (some sub) = none →
      refreshTokenRoute users (some (jwtSign (.authed sub email) t0)) now =
        .err 404 "User not found") := by
  have hver : jwtVerify (jwtSign (.authed sub email) t0) now =
      some (.authed sub email) := by
    simp [jwtVerify, jwtSign, hexp]
  constructor
  · intro u hu
    have hid : u.id = sub := by
      have hu' := hu
      simp only [userFindById] at hu'
      have := List.find?_some hu'
      simpa using this
    constructor
    · simp [refreshTokenRoute, verifyToken, hver, subOf, hu, hid]
    · have hpos : 0 < TOKEN_TTL_MS := by decide
      omega
  · intro hnone
    simp [refreshTokenRoute, verifyToken, hver, subOf, hnone]

/-- Witness for C6: a concrete refresh at `now = 200` of a token minted at
`t0 = 100`. -/
theorem refresh_token_fresh_window_w :
    refreshTokenRoute [⟨"u1", "Ann", "ann@x.com", "h1"⟩]
        (some (jwtSign (.authed "u1" "ann@x.com") 100)) 200 =
      .ok (jwtSign (.authed "u1" "ann@x.com") 200) (200 + TOKEN_TTL_MS)
        "u1" "Ann" "ann@x.com" ∧
    100 < 200 + TOKEN_TTL_MS :=
  (refresh_token_fresh_window [⟨"u1", "Ann", "ann@x.com", "h1"⟩] "u1" "ann@x.com"
      100 200 (by decide) (by decide)).1
    ⟨"u1", "Ann", "ann@x.com", "h1"⟩ (by decide)

/-- C7: login with an unknown email and login with a known email but a wrong
password produce the same generic failure — identical 401 status and
identical "Invalid email or password" message — so the response leaks
nothing about account existence. -/
theorem login_no_enumeration (users : UserDB) (otps : OtpDB)
    (cmp : String → String → Bool) (r : Nat) (mo : Bool) (pv : String)
    (now : Nat) (e1 p1 e2 p2 : String) (u : Account)
    (hparse1 : loginParseOk e1 p1 = true)
    (hparse2 : loginParseOk e2 p2 = true)
    (h1 : userFindOne users e1 = none)
    (h2 : userFindOne users e2 = some u)
    (h3 : cmp p2 u.passwordHash = false) :
    (loginRoute users otps cmp r mo pv now e1 p1).resp =
      .err 401 "Invalid email or password" ∧
    (loginRoute users otps cmp r mo pv now e2 p2).resp =
      .err 401 "Invalid email or password" ∧
    (loginRoute users otps cmp r mo pv now e1 p1).resp =
      (loginRoute users otps cmp r mo pv now e2 p2).resp := by
  have ha : (loginRoute users otps cmp r mo pv now e1 p1).resp =
      .err 401 "Invalid email or password" := by
    simp [loginRoute, hparse1, h1]
  have hb : (loginRoute users otps cmp r mo pv now e2 p2).resp =
      .err 401 "Invalid email or password" := by
    simp [loginRoute, hparse2, h2, h3]
  exact ⟨ha, hb, by rw [ha, hb]⟩

/-- Witness for C7: an unknown email and a known email with a rejected
password against a concrete store. -/
theorem login_no_enumeration_w :
    (loginRoute [⟨"u1", "Ann", "ann@x.com", "h1"⟩] [] (fun _ _ => false)
        0 true "pv" 0 "bob@x.com" "secret1").resp =
      .err 401 "Invalid email or password" ∧
    (loginRoute [⟨"u1", "Ann", "ann@x.com", "h1"⟩] [] (fun _ _ => false)
        0 true "pv" 0 "ann@x.com" "wrong-pass").resp =
      .err 401 "Invalid email or password" ∧
    (loginRoute [⟨"u1", "Ann", "ann@x.com", "h1"⟩] [] (fun _ _ => false)
        0 true "pv" 0 "bob@x.com" "secret1").resp =
      (loginRoute [⟨"u1", "Ann", "ann@x.com", "h1"⟩] [] (fun _ _ => false)
        0 true "pv" 0 "ann@x.com" "wrong-pass").resp :=
  login_no_enumeration [⟨"u1", "Ann", "ann@x.com", "h1"⟩] [] (fun _ _ => false)
    0 true "pv" 0 "bob@x.com" "secret1" "ann@x.com" "wrong-pass"
    ⟨"u1", "Ann", "ann@x.com", "h1"⟩
    (by decide) (by decide) (by decide) (by decide) rfl

/-- C8: `validateCSRF` rejects with 403 Forbidden exactly when the
`X-CSRF-Token` header is missing, no live token is stored for the request's
sessionId (the `X-Session-Id` header, falling back to the caller IP), or the
presented header differs from the stored (most recently issued) token; and a
new issuance for a sessionId overwrites the prior token, so the stored token
is always the most recently issued one. The `hstored` hypothesis records
that issued tokens are 64-hex-character strings, never empty. -/
theorem validateCSRF_exact (tokens : CsrfStore) (hdrToken hdrSession : Option String)
    (ip : String) (st : CsrfState) (now : Nat) (tok : String)
    (hstored : csrfGet tokens (sessionIdOf hdrSession ip) ≠ some "") :
    ((validateCSRF tokens hdrToken hdrSession ip).isForbidden = true ↔
      (hdrToken = none ∨ csrfGet tokens (sessionIdOf hdrSession ip) = none ∨
        hdrToken ≠ csrfGet tokens (sessionIdOf hdrSession ip))) ∧
    csrfGet (csrfIssue st now (sessionIdOf hdrSession ip) tok).tokens
      (sessionIdOf hdrSession ip) = some tok := by
  constructor
  · rcases hdrToken with _ | token
    · simp [validateCSRF, CsrfRes.isForbidden]
    · by_cases ht : token = ""
      · subst ht
        rcases hget : csrfGet tokens (sessionIdOf hdrSession ip) with _ | s
        · simp [validateCSRF, CsrfRes.isForbidden, hget]
        · have hs : "" ≠ s := fun h => hstored (by rw [hget, h])
          simp [validateCSRF, CsrfRes.isForbidden, hget, hs]
      · rcases hget : csrfGet tokens (sessionIdOf hdrSession ip) with _ | s
        · simp [validateCSRF, CsrfRes.isForbidden, hget, ht]
        · by_cases hst : s = token
          · have hs : s ≠ "" := by rw [hst]; exact ht
            simp [validateCSRF, CsrfRes.isForbidden, hget, ht, hst, hs]
          · have hts : token ≠ s := fun h => hst h.symm
            simp [validateCSRF, CsrfRes.isForbidden, hget, ht, hst, hts]
  · simp [csrfIssue, csrfSet, csrfGet]

/-- Witness for C8: a mismatching presented token against a concrete store,
and a concrete overwriting issuance. -/
theorem validateCSRF_exact_w :
    ((validateCSRF [("s1", "tokA")] (some "tokB") (some "s1") "9.9.9.9").isForbidden = true ↔
      (some "tokB" = none ∨ csrfGet [("s1", "tokA")] (sessionIdOf (some "s1") "9.9.9.9") = none ∨
        some "tokB" ≠ csrfGet [("s1", "tokA")] (sessionIdOf (some "s1") "9.9.9.9"))) ∧
    csrfGet (csrfIssue ⟨[("s1", "tokA")], []⟩ 0 (sessionIdOf (some "s1") "9.9.9.9") "tokC").tokens
      (sessionIdOf (some "s1") "9.9.9.9") = some "tokC" :=
  validateCSRF_exact [("s1", "tokA")] (some "tokB") (some "s1") "9.9.9.9"
    ⟨[("s1", "tokA")], []⟩ 0 "tokC" (by decide)

/-- C9: when `verify-otp` is presented the live record's correct code but
the referenced account no longer exists, the endpoint answers 404 NotFound
having already consumed the record (`deleteMany` runs before the account
lookup), so state changes on this error path and a retry with the same code
answers 401 Unauthorized. -/
theorem verify_otp_user_vanished (users : UserDB) (otps : OtpDB)
    (now now2 : Nat) (email code : String) (rec : OtpRecord)
    (hparse : verifyOtpParseOk email code = true)
    (hrec : otpFindOne otps email = some rec)
    (hcode : rec.code = code)
    (hu : userFindOne users email = none) :
    verifyOtpRoute users otps now email code =
      (.err 404 "User not found", otpDeleteMany otps email) ∧
    otpFindOne (otpDeleteMany otps email) email = none ∧
    (verifyOtpRoute users (otpDeleteMany otps email) now2 email code).1 =
      .err 401 "Invalid or expired code" := by
  refine ⟨?_, otpFindOne_deleteMany _ _, ?_⟩
  · simp [verifyOtpRoute, hparse, hrec, hcode, hu]
  · simp [verifyOtpRoute, hparse, otpFindOne_deleteMany]

/-- Witness for C9: a concrete matching code whose account is gone. -/
theorem verify_otp_user_vanished_w :
    verifyOtpRoute [] [⟨"ann@x.com", "123456", 0⟩] 5 "ann@x.com" "123456" =
      (.err 404 "User not found", otpDeleteMany [⟨"ann@x.com", "123456", 0⟩] "ann@x.com") ∧
    otpFindOne (otpDeleteMany [⟨"ann@x.com", "123456", 0⟩] "ann@x.com") "ann@x.com" = none ∧
    (verifyOtpRoute [] (otpDeleteMany [⟨"ann@x.com", "123456", 0⟩] "ann@x.com")
        6 "ann@x.com" "123456").1 = .err 401 "Invalid or expired code" :=
  verify_otp_user_vanished [] [⟨"ann@x.com", "123456", 0⟩] 5 6
    "ann@x.com" "123456" ⟨"ann@x.com", "123456", 0⟩
    (by decide) (by decide) rfl rfl

/-- C10: every `GET /csrf-token` call appends an uncancellable deletion
timer for its sessionId, firing 5 minutes later. After a second issuance for
the same sessionId (before the first timer fires), both timers are pending
and the newer token is the stored one; when the first call's timer fires at
`t1 + 5min` it unconditionally deletes the stored token — the newer one —
whose effective lifetime `t1 + 5min - t2` is then strictly less than the
5-minute TTL. -/
theorem csrf_timer_not_cancelled (st : CsrfState) (sid tok1 tok2 : String)
    (t1 t2 : Nat) (h12 : t1 < t2) (h2before : t2 ≤ t1 + CSRF_TTL_MS) :
    ((t1 + CSRF_TTL_MS, sid) ∈
        (csrfIssue (csrfIssue st t1 sid tok1) t2 sid tok2).timers ∧
      (t2 + CSRF_TTL_MS, sid) ∈
        (csrfIssue (csrfIssue st t1 sid tok1) t2 sid tok2).timers) ∧
    csrfGet (csrfIssue (csrfIssue st t1 sid tok1) t2 sid tok2).tokens sid =
      some tok2 ∧
    csrfGet (fireTimers (csrfIssue (csrfIssue st t1 sid tok1) t2 sid tok2)
        (t1 + CSRF_TTL_MS)).tokens sid = none ∧
    t1 + CSRF_TTL_MS - t2 < CSRF_TTL_MS := by
  refine ⟨⟨?_, ?_⟩, ?_, ?_, ?_⟩
  · simp [csrfIssue]
  · simp [csrfIssue]
  · simp [csrfIssue, csrfSet, csrfGet]
  · refine fireTimers_deletes _ _ (t1 + CSRF_TTL_MS) _ ?_ le_rfl
    simp [csrfIssue]
  · have hpos : 0 < CSRF_TTL_MS := by decide
    omega

/-- Witness for C10: two concrete issuances 100 ms apart; the newer token is
stored, then deleted when the older timer fires. -/
theorem csrf_timer_not_cancelled_w :
    ((0 + CSRF_TTL_MS, "s1") ∈
        (csrfIssue (csrfIssue ⟨[], []⟩ 0 "s1" "a") 100 "s1" "b").timers ∧
      (100 + CSRF_TTL_MS, "s1") ∈
        (csrfIssue (csrfIssue ⟨[], []⟩ 0 "s1" "a") 100 "s1" "b").timers) ∧
    csrfGet (csrfIssue (csrfIssue ⟨[], []⟩ 0 "s1" "a") 100 "s1" "b").tokens "s1" =
      some "b" ∧
    csrfGet (fireTimers (csrfIssue (csrfIssue ⟨[], []⟩ 0 "s1" "a") 100 "s1" "b")
        (0 + CSRF_TTL_MS)).tokens "s1" = none ∧
    0 + CSRF_TTL_MS - 100 < CSRF_TTL_MS :=
  csrf_timer_not_cancelled ⟨[], []⟩ "s1" "a" "b" 0 100 (by decide) (by decide)

end Auth
